import Mathlib

/-!
Verification of the typed error-mapping and request/response contract layer
of the Kohub CLI (`src/kohub_cli/errors.py` and `src/kohub_cli/client.py`),
as a shallow embedding in Lean.

Strings are modelled by Lean `String` (a list of unicode code points, matching
Python `str` semantics for the operations used here: substring containment,
`startswith`, slicing, per-character lowering).
-/

namespace Kohub

/-! ### Python-style string primitives (code-point based) -/

/-- Python `l.startswith(p)` on code-point lists. -/
def listStartsWith : List Char → List Char → Bool
  | _, [] => true
  | [], _ :: _ => false
  | a :: as, b :: bs => a == b && listStartsWith as bs

/-- Python substring test `needle in haystack` on code-point lists:
true iff `needle` occurs contiguously in the haystack (the empty needle
always occurs). -/
def containsSub : List Char → List Char → Bool
  | [], needle => needle.isEmpty
  | a :: as, needle => listStartsWith (a :: as) needle || containsSub as needle

/-- Python `needle in haystack` for strings. -/
def pyIn (needle haystack : String) : Bool :=
  containsSub haystack.data needle.data

/-- Python `s.lower()` (per-code-point lowering; agrees with CPython on the
ASCII messages this layer compares). -/
def pyLower (s : String) : String :=
  ⟨s.data.map Char.toLower⟩

/-- Python f-string / `+` concatenation of strings. -/
def pyConcat (a b : String) : String :=
  ⟨a.data ++ b.data⟩

/-- Python slice `s[n:]` (by code points). -/
def pySliceFrom (s : String) (n : Nat) : String :=
  ⟨s.data.drop n⟩

/-- Python `s.startswith(p)` for strings. -/
def pyStartswith (s pre : String) : Bool :=
  listStartsWith s.data pre.data

/-- Python `a or b` where `a` is an optional string (`None` and `""` are
falsy) and `b` is a string: returns `a` when truthy, else `b`. -/
def pyOrOptStr (a : Option String) (b : String) : String :=
  match a with
  | some s => if s = "" then b else s
  | none => b

/-! ### Data model: responses and the error taxonomy (`errors.py`) -/

/-- The structured part of a response body that `handle_response_error`
inspects: `data.get("detail")` and `data.get("message")`. A field that is
absent or JSON `null` is `none`; the empty string is falsy in Python, which
`pyOrOptStr` accounts for. -/
structure JsonBody where
  detail : Option String := none
  message : Option String := none
  deriving DecidableEq, Repr

/-- A completed HTTP response as seen by the contract layer: the integer
status code, the raw body text, and the result of `response.json()` —
`none` models a body that fails to parse as a JSON object (any exception
in the `try` block, including non-dict JSON). -/
structure Response where
  status_code : Int
  text : String
  jsonBody : Option JsonBody := none
  deriving DecidableEq, Repr

/-- The closed error taxonomy of `errors.py`. `KohubError` is the generic
catch-all base kind raised for status codes not covered by a specific rule. -/
inductive ErrorKind where
  | AuthenticationError
  | AuthorizationError
  | NotFoundError
  | AlreadyExistsError
  | ValidationError
  | ServerError
  | NetworkError
  | KohubError
  deriving DecidableEq, Repr

/-- An error record as constructed by the taxonomy: the kind, the derived
message, and the optional status code (`none` only for network failures,
whose constructor call passes no status). The `response` handle is opaque
and carries no behavior, so it is omitted from the embedding. -/
structure KohubErr where
  kind : ErrorKind
  message : String
  status_code : Option Int
  deriving DecidableEq, Repr

/-- Message extraction of `handle_response_error` (errors.py lines 67-71):
on JSON parse success, `data.get("detail") or data.get("message") or
response.text`; on parse failure, `response.text or f"HTTP {status}"`. -/
def extractMessage (r : Response) : String :=
  match r.jsonBody with
  | some data => pyOrOptStr data.detail (pyOrOptStr data.message r.text)
  | none => if r.text = "" then pyConcat "HTTP " (toString r.status_code) else r.text

/-- `handle_response_error` (errors.py lines 56-88): classify a completed
response into a typed error by status code, with the "exists" substring
heuristic disambiguating status 400. The Python function raises; the
embedding returns the error record it would raise. -/
def handle_response_error (r : Response) : KohubErr :=
  let status := r.status_code
  let message := extractMessage r
  if status = 401 then
    ⟨ErrorKind.AuthenticationError, message, some status⟩
  else if status = 403 then
    ⟨ErrorKind.AuthorizationError, message, some status⟩
  else if status = 404 then
    ⟨ErrorKind.NotFoundError, message, some status⟩
  else if status = 400 then
    if pyIn "already exists" (pyLower message) || pyIn "exists" (pyLower message) then
      ⟨ErrorKind.AlreadyExistsError, message, some status⟩
    else
      ⟨ErrorKind.ValidationError, message, some status⟩
  else if 500 ≤ status then
    ⟨ErrorKind.ServerError, message, some status⟩
  else
    ⟨ErrorKind.KohubError, message, some status⟩

/-! ### Client session state and the request entry point (`client.py`) -/

/-- Lookup in a string-keyed dict modelled as an association list
(Python `d.get(k)` returning `None` when absent). -/
def dictGet (d : List (String × String)) (k : String) : Option String :=
  match d with
  | [] => none
  | (k', v) :: rest => if k' = k then some v else dictGet rest k

/-- Python `d.get(k, default)`. -/
def dictGetD (d : List (String × String)) (k dflt : String) : String :=
  (dictGet d k).getD dflt

/-- Python `d[k] = v`: replace the binding if present, else append. -/
def dictSet (d : List (String × String)) (k v : String) : List (String × String) :=
  match d with
  | [] => [(k, v)]
  | (k', v') :: rest => if k' = k then (k, v) :: rest else (k', v') :: dictSet rest k v

/-- Python `d.pop(k, None)`'s effect on the dict: remove the key. -/
def dictPop (d : List (String × String)) (k : String) : List (String × String) :=
  match d with
  | [] => []
  | (k', v) :: rest => if k' = k then dictPop rest k else (k', v) :: dictPop rest k

/-- Client session state: the base endpoint and the session headers
(`self.endpoint` and `self.session.headers` of `KohubClient`). -/
structure ClientState where
  endpoint : String
  headers : List (String × String)
  deriving DecidableEq, Repr

/-- `KohubClient.__init__` with no token configured: a fresh session whose
default headers carry no `Authorization` entry. -/
def initState (endpoint : String) : ClientState :=
  ⟨endpoint, []⟩

/-- The `token` property getter (client.py lines 60-66):
`auth = self.session.headers.get("Authorization", "")`; return `auth[7:]`
when it starts with `"Bearer "`, else `None`. -/
def tokenGet (st : ClientState) : Option String :=
  let auth := dictGetD st.headers "Authorization" ""
  if pyStartswith auth "Bearer " then some (pySliceFrom auth 7) else none

/-- The `token` property setter (client.py lines 68-74): a truthy value
stores `Authorization: Bearer <value>`; a falsy value (`None` or `""`)
pops the header. -/
def tokenSet (st : ClientState) (value : Option String) : ClientState :=
  match value with
  | some v =>
      if v = "" then { st with headers := dictPop st.headers "Authorization" }
      else { st with headers := dictSet st.headers "Authorization" (pyConcat "Bearer " v) }
  | none => { st with headers := dictPop st.headers "Authorization" }

/-- The headers the session attaches to an outgoing request
(`requests.Session.request` merges the session headers into every request). -/
def requestHeaders (st : ClientState) : List (String × String) :=
  st.headers

/-- Outcome of the underlying transport call `self.session.request(...)`:
either a transport-level exception (`requests.RequestException`, carrying
its string description) before any response, or a completed response. -/
inductive TransportOutcome where
  | exc (desc : String)
  | resp (r : Response)
  deriving DecidableEq, Repr

/-- The transport's success predicate `response.ok`, conventionally
status < 400 as the spec describes (the transport library is external to
this repository). -/
def respOk (r : Response) : Bool :=
  r.status_code < 400

/-- `KohubClient._request` (client.py lines 76-101): on a transport
exception raise `NetworkError(f"Network request failed: {e}")` (no status
code); on a completed non-ok response raise the classified error; on an ok
response return it unmodified. The state is threaded explicitly; the body
never writes to it, mirroring that the Python method never assigns to
`self.endpoint` or `self.session.headers`. -/
def _request (st : ClientState) (t : TransportOutcome) :
    Except KohubErr Response × ClientState :=
  match t with
  | TransportOutcome.exc desc =>
      (Except.error ⟨ErrorKind.NetworkError, pyConcat "Network request failed: " desc, none⟩, st)
  | TransportOutcome.resp r =>
      if respOk r then (Except.ok r, st)
      else (Except.error (handle_response_error r), st)

/-! ### Helper lemmas -/

/-- Every classified error carries the response's status code. -/
theorem handle_statusCode (r : Response) :
    (handle_response_error r).status_code = some r.status_code := by
  unfold handle_response_error
  dsimp only
  repeat' split
  all_goals rfl

/-- Classification never produces the network-failure kind. -/
theorem handle_kind_ne_network (r : Response) :
    (handle_response_error r).kind ≠ ErrorKind.NetworkError := by
  unfold handle_response_error
  dsimp only
  repeat' split
  all_goals simp

theorem listStartsWith_append (p q : List Char) :
    listStartsWith (p ++ q) p = true := by
  induction p with
  | nil => cases q <;> rfl
  | cons a as ih => simp [listStartsWith, ih]

/-- A list that starts with `p ++ q` contains `q` as a contiguous run. -/
theorem containsSub_of_startsWith_append (p q l : List Char)
    (h : listStartsWith l (p ++ q) = true) : containsSub l q = true := by
  induction p generalizing l with
  | nil =>
      cases l with
      | nil =>
          cases q with
          | nil => rfl
          | cons b bs => simp [listStartsWith] at h
      | cons a as =>
          simp only [List.nil_append] at h
          simp [containsSub, h]
  | cons c p' ih =>
      cases l with
      | nil => simp [listStartsWith] at h
      | cons a as =>
          simp only [List.cons_append, listStartsWith, Bool.and_eq_true] at h
          have := ih as h.2
          simp [containsSub, this]

/-- Containment is antitone in the needle: containing `p ++ q` implies
containing `q`. -/
theorem containsSub_append_right (p q l : List Char)
    (h : containsSub l (p ++ q) = true) : containsSub l q = true := by
  induction l with
  | nil =>
      simp only [containsSub, List.isEmpty_iff, List.append_eq_nil] at h ⊢
      exact h.2
  | cons a as ih =>
      simp only [containsSub, Bool.or_eq_true] at h
      rcases h with h | h
      · exact containsSub_of_startsWith_append p q _ h
      · simp [containsSub, ih h]

/-- A suffix is contained. -/
theorem containsSub_suffix (p l : List Char) : containsSub (p ++ l) l = true := by
  induction p with
  | nil =>
      cases l with
      | nil => rfl
      | cons a as =>
          have h0 : listStartsWith (a :: as) (a :: as) = true := by
            have h1 := listStartsWith_append (a :: as) []
            rwa [List.append_nil] at h1
          simp [containsSub, h0]
  | cons c p' ih => simp [containsSub, ih]

/-- Containing `"already exists"` implies containing `"exists"`. -/
theorem pyIn_exists_of_already (m : String)
    (h : pyIn "already exists" m = true) : pyIn "exists" m = true := by
  have hsplit : ("already exists").data = ("already ").data ++ ("exists").data := by decide
  unfold pyIn at h ⊢
  rw [hsplit] at h
  exact containsSub_append_right _ _ _ h

theorem dictGet_dictSet (d : List (String × String)) (k v : String) :
    dictGet (dictSet d k v) k = some v := by
  induction d with
  | nil => simp [dictSet, dictGet]
  | cons p rest ih =>
      obtain ⟨k', v'⟩ := p
      by_cases h : k' = k
      · simp [dictSet, dictGet, h]
      · simp [dictSet, dictGet, h, ih]

theorem dictGet_dictPop (d : List (String × String)) (k : String) :
    dictGet (dictPop d k) k = none := by
  induction d with
  | nil => rfl
  | cons p rest ih =>
      obtain ⟨k', v'⟩ := p
      by_cases h : k' = k
      · simp [dictPop, h, ih]
      · simp [dictPop, dictGet, h, ih]

theorem empty_ne_pyConcat_http (s : String) : "" ≠ pyConcat "HTTP " s := by
  intro h
  have hdata : ([] : List Char) = ("HTTP ").data ++ s.data := congrArg String.data h
  have h5 : ("HTTP ").data = 'H' :: 'T' :: 'T' :: 'P' :: ' ' :: [] := rfl
  rw [h5] at hdata
  simp at hdata

/-! ### Claim theorems -/

/-- Claim C1: for every HTTP response with status code 401, 403, 404, or >= 500,
the classifier raises AuthenticationError, AuthorizationError, NotFoundError, or
ServerError respectively, and the raised error's status_code equals the
response's status code. -/
theorem C1_classification_by_status (r : Response) :
    (r.status_code = 401 → (handle_response_error r).kind = ErrorKind.AuthenticationError)
  ∧ (r.status_code = 403 → (handle_response_error r).kind = ErrorKind.AuthorizationError)
  ∧ (r.status_code = 404 → (handle_response_error r).kind = ErrorKind.NotFoundError)
  ∧ (500 ≤ r.status_code → (handle_response_error r).kind = ErrorKind.ServerError)
  ∧ (handle_response_error r).status_code = some r.status_code := by
  refine ⟨fun h => ?_, fun h => ?_, fun h => ?_, fun h => ?_, handle_statusCode r⟩
  · simp [handle_response_error, h]
  · simp [handle_response_error, h]
  · simp [handle_response_error, h]
  · have h1 : r.status_code ≠ 401 := by omega
    have h2 : r.status_code ≠ 403 := by omega
    have h3 : r.status_code ≠ 404 := by omega
    have h4 : r.status_code ≠ 400 := by omega
    simp [handle_response_error, h1, h2, h3, h4, h]

theorem C1_classification_by_status_witness :
    (handle_response_error ⟨401, "x", none⟩).kind = ErrorKind.AuthenticationError
  ∧ (handle_response_error ⟨503, "x", none⟩).kind = ErrorKind.ServerError :=
  ⟨(C1_classification_by_status ⟨401, "x", none⟩).1 rfl,
   (C1_classification_by_status ⟨503, "x", none⟩).2.2.2.1 (by decide)⟩

/-- Claim C2: for every response with status code 400, classification yields
AlreadyExistsError if the extracted message contains the substring "exists"
case-insensitively anywhere, and ValidationError otherwise. (The code's
disjunct testing "already exists" is redundant, since containing
"already exists" entails containing "exists".) -/
theorem C2_exists_heuristic (r : Response) (h : r.status_code = 400) :
    (handle_response_error r).kind =
      (if pyIn "exists" (pyLower (extractMessage r)) then ErrorKind.AlreadyExistsError
       else ErrorKind.ValidationError) := by
  have hcond : (pyIn "already exists" (pyLower (extractMessage r))
        || pyIn "exists" (pyLower (extractMessage r)))
      = pyIn "exists" (pyLower (extractMessage r)) := by
    cases he : pyIn "exists" (pyLower (extractMessage r)) with
    | true => simp
    | false =>
        cases ha : pyIn "already exists" (pyLower (extractMessage r)) with
        | true => exact absurd (pyIn_exists_of_already _ ha) (by simp [he])
        | false => simp
  simp only [handle_response_error, h]
  rw [hcond]
  simp [apply_ite]

theorem C2_exists_heuristic_witness :
    (handle_response_error ⟨400, "dataset exists already", none⟩).kind =
      (if pyIn "exists" (pyLower (extractMessage ⟨400, "dataset exists already", none⟩))
       then ErrorKind.AlreadyExistsError else ErrorKind.ValidationError) :=
  C2_exists_heuristic ⟨400, "dataset exists already", none⟩ rfl

/-- Claim C3: the classifier derives the error message by attempting, in order:
(a) parse the body as JSON and read a truthy detail field, else a truthy
message field; (b) on parse failure, use the raw response text; (c) if that
text is empty, synthesize "HTTP {status}". Extraction is a total function of
the response (it never fails), as witnessed by extractMessage being defined
for every Response. -/
theorem C3_message_extraction (r : Response) :
    (∀ data, r.jsonBody = some data →
        (∀ d, data.detail = some d → d ≠ "" → extractMessage r = d)
      ∧ ((data.detail = none ∨ data.detail = some "") →
          ∀ m, data.message = some m → m ≠ "" → extractMessage r = m))
  ∧ (r.jsonBody = none → r.text ≠ "" → extractMessage r = r.text)
  ∧ (r.jsonBody = none → r.text = "" →
      extractMessage r = pyConcat "HTTP " (toString r.status_code)) := by
  refine ⟨fun data hj => ⟨fun d hd hne => ?_, fun hd m hm hne => ?_⟩,
    fun hj hne => ?_, fun hj he => ?_⟩
  · simp [extractMessage, hj, pyOrOptStr, hd, hne]
  · rcases hd with hd | hd <;> simp [extractMessage, hj, pyOrOptStr, hd, hm, hne]
  · simp [extractMessage, hj, hne]
  · simp [extractMessage, hj, he]

theorem C3_message_extraction_witness :
    extractMessage ⟨500, "", none⟩ = pyConcat "HTTP " (toString (500 : Int)) :=
  (C3_message_extraction ⟨500, "", none⟩).2.2 rfl rfl

/-- Claim C4: the request entry point returns the raw response unmodified if
and only if the response is successful (status < 400, the transport's ok
predicate); every response with status >= 400 yields a typed error from the
taxonomy (the classifier's output), never a swallowed failure. -/
theorem C4_ok_iff_returned (st : ClientState) (r : Response) :
    ((_request st (TransportOutcome.resp r)).1 = Except.ok r ↔ respOk r = true)
  ∧ (respOk r = true ↔ r.status_code < 400)
  ∧ (respOk r = false →
      (_request st (TransportOutcome.resp r)).1 = Except.error (handle_response_error r)) := by
  refine ⟨?_, by simp [respOk], fun h => by simp [_request, h]⟩
  cases h : respOk r with
  | true => simp [_request, h]
  | false => simp [_request, h]

theorem C4_ok_iff_returned_witness :
    (_request (initState "http://h") (TransportOutcome.resp ⟨404, "nope", none⟩)).1
      = Except.error (handle_response_error ⟨404, "nope", none⟩) :=
  (C4_ok_iff_returned (initState "http://h") ⟨404, "nope", none⟩).2.2 (by decide)

/-- Claim C5: a transport-level exception raised before any response is
received makes the request entry point produce NetworkError whose message
contains the underlying exception's description, and that error carries no
status code. -/
theorem C5_network_error (st : ClientState) (desc : String) :
    (_request st (TransportOutcome.exc desc)).1
      = Except.error ⟨ErrorKind.NetworkError, pyConcat "Network request failed: " desc, none⟩
  ∧ pyIn desc (pyConcat "Network request failed: " desc) = true := by
  constructor
  · rfl
  · show containsSub (("Network request failed: ").data ++ desc.data) desc.data = true
    exact containsSub_suffix _ _

/-- Claim C6: classification is total over all integer status codes: any
status not covered by a specific rule yields the generic catch-all kind, and
every classified error (never the network kind) carries a status_code equal
to the response's status. -/
theorem C6_totality_and_status (r : Response) :
    ((r.status_code ≠ 401 ∧ r.status_code ≠ 403 ∧ r.status_code ≠ 404 ∧
      r.status_code ≠ 400 ∧ r.status_code < 500) →
      (handle_response_error r).kind = ErrorKind.KohubError)
  ∧ (handle_response_error r).status_code = some r.status_code
  ∧ (handle_response_error r).kind ≠ ErrorKind.NetworkError := by
  refine ⟨fun h => ?_, handle_statusCode r, handle_kind_ne_network r⟩
  obtain ⟨h1, h2, h3, h4, h5⟩ := h
  have h6 : ¬ (500 ≤ r.status_code) := by omega
  simp [handle_response_error, h1, h2, h3, h4, h6]

theorem C6_totality_and_status_witness :
    (handle_response_error ⟨302, "", none⟩).kind = ErrorKind.KohubError :=
  (C6_totality_and_status ⟨302, "", none⟩).1 (by decide)

/-- Claim C7: while a bearer token is configured the outgoing request carries
the header Authorization with value exactly "Bearer <token>"; after the token
is cleared (set to None or the empty string), or on a fresh client that never
set one, the request carries no Authorization header at all. -/
theorem C7_authorization_header (st : ClientState) (t e : String) (ht : t ≠ "") :
    dictGet (requestHeaders (tokenSet st (some t))) "Authorization"
      = some (pyConcat "Bearer " t)
  ∧ dictGet (requestHeaders (tokenSet st none)) "Authorization" = none
  ∧ dictGet (requestHeaders (tokenSet st (some ""))) "Authorization" = none
  ∧ dictGet (requestHeaders (initState e)) "Authorization" = none := by
  refine ⟨?_, ?_, ?_, rfl⟩
  · simp [tokenSet, requestHeaders, ht, dictGet_dictSet]
  · simp [tokenSet, requestHeaders, dictGet_dictPop]
  · simp [tokenSet, requestHeaders, dictGet_dictPop]

theorem C7_authorization_header_witness :
    dictGet (requestHeaders (tokenSet (initState "http://h") (some "tok"))) "Authorization"
      = some (pyConcat "Bearer " "tok") :=
  (C7_authorization_header (initState "http://h") "tok" "http://h" (by decide)).1

/-- Claim C8: no call to the request entry point mutates the client's session
state: the base endpoint and the configured bearer token are identical before
and after every call, whether it returns a response or an error. -/
theorem C8_request_preserves_state (st : ClientState) (t : TransportOutcome) :
    (_request st t).2 = st
  ∧ (_request st t).2.endpoint = st.endpoint
  ∧ tokenGet (_request st t).2 = tokenGet st := by
  have h : (_request st t).2 = st := by
    cases t with
    | exc desc => rfl
    | resp r =>
        unfold _request
        dsimp only
        split <;> rfl
  exact ⟨h, by rw [h], by rw [h]⟩

/-- Claim C9: the token property round-trips: setting a non-empty token t then
reading it yields t; setting the empty string or None removes the header and
the getter yields None; the getter yields None whenever the stored
Authorization header does not start with "Bearer ". -/
theorem C9_token_roundtrip (st : ClientState) (t : String) (ht : t ≠ "") :
    tokenGet (tokenSet st (some t)) = some t
  ∧ tokenGet (tokenSet st none) = none
  ∧ tokenGet (tokenSet st (some "")) = none
  ∧ (∀ st2, pyStartswith (dictGetD st2.headers "Authorization" "") "Bearer " = false →
      tokenGet st2 = none) := by
  have hfalse : pyStartswith "" "Bearer " = false := rfl
  have hheaders : (tokenSet st (some t)).headers
      = dictSet st.headers "Authorization" (pyConcat "Bearer " t) := by
    simp [tokenSet, ht]
  have hget : dictGetD (dictSet st.headers "Authorization" (pyConcat "Bearer " t))
      "Authorization" "" = pyConcat "Bearer " t := by
    simp [dictGetD, dictGet_dictSet]
  have hstart : pyStartswith (pyConcat "Bearer " t) "Bearer " = true := by
    show listStartsWith (("Bearer ").data ++ t.data) (("Bearer ").data) = true
    exact listStartsWith_append _ _
  have hslice : pySliceFrom (pyConcat "Bearer " t) 7 = t := by
    show String.mk ((("Bearer ").data ++ t.data).drop 7) = t
    have h7 : (("Bearer ").data).length = 7 := rfl
    rw [← h7, List.drop_left]
  refine ⟨?_, ?_, ?_, fun st2 h2 => ?_⟩
  · simp [tokenGet, hheaders, hget, hstart, hslice]
  · simp [tokenGet, tokenSet, dictGetD, dictGet_dictPop, hfalse]
  · simp [tokenGet, tokenSet, dictGetD, dictGet_dictPop, hfalse]
  · simp [tokenGet, h2]

theorem C9_token_roundtrip_witness :
    tokenGet (tokenSet (initState "http://h") (some "abc")) = some "abc"
  ∧ tokenGet (⟨"http://h", [("Authorization", "Basic xyz")]⟩ : ClientState) = none :=
  ⟨(C9_token_roundtrip (initState "http://h") "abc" (by decide)).1,
   (C9_token_roundtrip (initState "http://h") "abc" (by decide)).2.2.2
     ⟨"http://h", [("Authorization", "Basic xyz")]⟩ (by decide)⟩

/-- Claim C10: in the JSON-parse-success branch, a present-but-falsy detail
field (and then message field) is skipped in favor of the raw response text;
and if that text is also empty the resulting message is the empty string, with
no "HTTP {status}" fallback applied. -/
theorem C10_falsy_fields_fall_through (r : Response) (data : JsonBody)
    (hj : r.jsonBody = some data)
    (hd : data.detail = none ∨ data.detail = some "")
    (hm : data.message = none ∨ data.message = some "") :
    extractMessage r = r.text
  ∧ (r.text = "" →
      extractMessage r = "" ∧
      extractMessage r ≠ pyConcat "HTTP " (toString r.status_code)) := by
  have hmain : extractMessage r = r.text := by
    rcases hd with hd | hd <;> rcases hm with hm | hm <;>
      simp [extractMessage, hj, pyOrOptStr, hd, hm]
  refine ⟨hmain, fun he => ⟨hmain.trans he, ?_⟩⟩
  rw [hmain, he]
  exact empty_ne_pyConcat_http _

theorem C10_falsy_fields_fall_through_witness :
    extractMessage ⟨418, "", some ⟨some "", none⟩⟩ = "" :=
  ((C10_falsy_fields_fall_through ⟨418, "", some ⟨some "", none⟩⟩ ⟨some "", none⟩
      rfl (Or.inr rfl) (Or.inl rfl)).2 rfl).1

end Kohub
